import Mathlib

/-!
Shallow embedding of the window-visibility control paths of the waa-shell
application (src/src-tauri/src/lib.rs).

The program is an event-driven shell: a tray menu handler, a tray icon click
handler, a global-hotkey handler, a window-close interceptor, and a setup
routine that builds the tray and registers the hotkey.  Each Rust event
callback becomes a Lean function from the current window registry, the
host's responses to the window-system calls the callback makes (an
`Oracle`), and the event payload, to the updated registry together with
the list of window-system invocations the callback issued (its trace).

Host calls in the code and their embedding:
  * `window.is_visible()` returns `Result<bool>`; the code consumes it with
    `.unwrap_or(false)`.  The oracle field `vis_err` records whether this
    query errors; on success it reports the window's true visibility.
  * `window.hide() / show() / unminimize() / set_focus()` return `Result`;
    the handlers discard the result (`let _ = ...`), so a failed call leaves
    the window unchanged and the handler continues.  Oracle fields
    `hide_ok`, `show_ok`, `unminimize_ok`, `focus_ok` record success.
  * In the close interceptor the code calls `window.hide().unwrap()`:
    a failure panics, which the embedding renders as `none`.
-/

/-- Host-managed state of one window: visibility, minimized flag, and
whether it holds input focus. -/
structure Window where
  visible : Bool
  minimized : Bool
  focused : Bool
deriving Repr, DecidableEq

/-- The host's responses to the fallible window-system calls a single
handler invocation makes. -/
structure Oracle where
  vis_err : Bool
  hide_ok : Bool
  show_ok : Bool
  unminimize_ok : Bool
  focus_ok : Bool
deriving Repr, DecidableEq

/-- `window.is_visible()` : `Err` when `vis_err`, otherwise the true state. -/
def isVisibleRes (w : Window) (o : Oracle) : Option Bool :=
  if o.vis_err then none else some w.visible

/-- `window.is_visible().unwrap_or(false)` as written in the handlers. -/
def obsVisible (w : Window) (o : Oracle) : Bool :=
  (isVisibleRes w o).getD false

/-- `window.hide()` : on success the window becomes invisible. -/
def hideRes (w : Window) (o : Oracle) : Option Window :=
  if o.hide_ok then some { w with visible := false } else none

/-- `window.show()` : on success the window becomes visible. -/
def showRes (w : Window) (o : Oracle) : Option Window :=
  if o.show_ok then some { w with visible := true } else none

/-- `window.unminimize()` : on success the window is restored. -/
def unminimizeRes (w : Window) (o : Oracle) : Option Window :=
  if o.unminimize_ok then some { w with minimized := false } else none

/-- `window.set_focus()` : on success the window gains input focus. -/
def setFocusRes (w : Window) (o : Oracle) : Option Window :=
  if o.focus_ok then some { w with focused := true } else none

/-- The window-system invocations a handler issues, in order.  An entry
records the call being made, whether or not the host reports success. -/
inductive Effect where
  | hideW (name : String)
  | showW (name : String)
  | unminimizeW (name : String)
  | focusW (name : String)
  | preventClose
  | exitApp (code : Int)
deriving Repr, DecidableEq

/-- The host's name-to-window registry (`app.get_webview_window`). -/
def Registry := List (String × Window)
deriving DecidableEq, Repr

/-- `app.get_webview_window(name)`. -/
def getWindow : Registry → String → Option Window
  | [], _ => none
  | p :: rest, n => if p.1 = n then some p.2 else getWindow rest n

/-- Replace the window stored under `n` (host-side state update). -/
def setWindow : Registry → String → Window → Registry
  | [], _, _ => []
  | p :: rest, n, w =>
    if p.1 = n then (p.1, w) :: setWindow rest n w else p :: setWindow rest n w

/-- Result of one steady-state handler invocation: the updated registry,
the exit code it requested (only `quit` does), and its invocation trace. -/
structure HandlerOut where
  registry : Registry
  exitCode : Option Int
  trace : List Effect
deriving Repr, DecidableEq

/-- `on_menu_event` (lib.rs:41-67): matches the menu id against
"quit", "show_hide" and "toggle_launcher"; anything else is ignored. -/
def on_menu_event (r : Registry) (o : Oracle) : String → HandlerOut
  | "quit" => ⟨r, some 0, [Effect.exitApp 0]⟩
  | "show_hide" =>
    match getWindow r "main" with
    | some window =>
      if obsVisible window o then
        ⟨setWindow r "main" ((hideRes window o).getD window), none,
          [Effect.hideW "main"]⟩
      else
        let w1 := (showRes window o).getD window
        let w2 := (setFocusRes w1 o).getD w1
        ⟨setWindow r "main" w2, none, [Effect.showW "main", Effect.focusW "main"]⟩
    | none => ⟨r, none, []⟩
  | "toggle_launcher" =>
    match getWindow r "launcher" with
    | some window =>
      if obsVisible window o then
        ⟨setWindow r "launcher" ((hideRes window o).getD window), none,
          [Effect.hideW "launcher"]⟩
      else
        let w1 := (showRes window o).getD window
        let w2 := (unminimizeRes w1 o).getD w1
        let w3 := (setFocusRes w2 o).getD w2
        ⟨setWindow r "launcher" w3, none,
          [Effect.showW "launcher", Effect.unminimizeW "launcher",
            Effect.focusW "launcher"]⟩
    | none => ⟨r, none, []⟩
  | _ => ⟨r, none, []⟩

/-- Mouse buttons of a tray click (`tauri::tray::MouseButton`). -/
inductive MouseButton where
  | left
  | right
  | middle
deriving Repr, DecidableEq

/-- Tray icon events (`tauri::tray::TrayIconEvent`): a click with a button,
or any of the other variants (double click, enter, move, leave, ...). -/
inductive TrayIconEvent where
  | click (button : MouseButton)
  | other
deriving Repr, DecidableEq

/-- `on_tray_icon_event` (lib.rs:68-84): only `Click` with the left button
acts; it toggles the "main" window exactly as the "show_hide" menu arm. -/
def on_tray_icon_event (r : Registry) (o : Oracle) : TrayIconEvent → HandlerOut
  | TrayIconEvent.click MouseButton.left =>
    match getWindow r "main" with
    | some window =>
      if obsVisible window o then
        ⟨setWindow r "main" ((hideRes window o).getD window), none,
          [Effect.hideW "main"]⟩
      else
        let w1 := (showRes window o).getD window
        let w2 := (setFocusRes w1 o).getD w1
        ⟨setWindow r "main" w2, none, [Effect.showW "main", Effect.focusW "main"]⟩
    | none => ⟨r, none, []⟩
  | _ => ⟨r, none, []⟩

/-- `tauri_plugin_global_shortcut::ShortcutState`. -/
inductive ShortcutState where
  | pressed
  | released
deriving Repr, DecidableEq

/-- The hotkey callback passed to `on_shortcut` (lib.rs:95-108): only a
`Pressed` event acts; it toggles the "launcher" window exactly as the
"toggle_launcher" menu arm. -/
def on_shortcut (r : Registry) (o : Oracle) : ShortcutState → HandlerOut
  | ShortcutState.pressed =>
    match getWindow r "launcher" with
    | some window =>
      if obsVisible window o then
        ⟨setWindow r "launcher" ((hideRes window o).getD window), none,
          [Effect.hideW "launcher"]⟩
      else
        let w1 := (showRes window o).getD window
        let w2 := (unminimizeRes w1 o).getD w1
        let w3 := (setFocusRes w2 o).getD w2
        ⟨setWindow r "launcher" w3, none,
          [Effect.showW "launcher", Effect.unminimizeW "launcher",
            Effect.focusW "launcher"]⟩
    | none => ⟨r, none, []⟩
  | ShortcutState.released => ⟨r, none, []⟩

/-- Window events reaching `on_window_event` (`tauri::WindowEvent`):
a close request or any other variant. -/
inductive WinEvent where
  | closeRequested
  | other
deriving Repr, DecidableEq

/-- `on_window_event` (lib.rs:117-123): on `CloseRequested` the handler runs
`window.hide().unwrap()` and then `api.prevent_close()`.  A failed hide
panics (`none`); the trace keeps the invocations issued before the panic. -/
def on_window_event (name : String) (w : Window) (o : Oracle) :
    WinEvent → Option Window × List Effect
  | WinEvent.closeRequested =>
    match hideRes w o with
    | some w1 => (some w1, [Effect.hideW name, Effect.preventClose])
    | none => (none, [Effect.hideW name])
  | WinEvent.other => (some w, [])

/-- The host's responses to the fallible calls `setup` makes: the `?`-lifted
menu-item/menu constructions, the tray construction (icon lookup and build),
and `global_shortcut().on_shortcut(...)` registration. -/
structure SetupOracle where
  menu_ok : Bool
  tray_ok : Bool
  register_ok : Bool
deriving Repr, DecidableEq

/-- What `setup` leaves behind on success: whether the tray (menu, menu
handler, click handler) is installed, whether the Ctrl+Alt+A hotkey handler
is registered, and the lines written to standard error. -/
structure SetupResult where
  tray_installed : Bool
  hotkey_registered : Bool
  errlog : List String
deriving Repr, DecidableEq

/-- `setup` (lib.rs:23-115): menu and tray construction failures propagate
with `?` and abort setup; a hotkey registration failure is only written to
stderr and setup still returns `Ok`. -/
def setup (o : SetupOracle) : Except String SetupResult :=
  if !o.menu_ok then Except.error "menu construction failed"
  else if !o.tray_ok then Except.error "tray construction failed"
  else if o.register_ok then Except.ok ⟨true, true, []⟩
  else Except.ok ⟨true, false, ["グローバルショートカットの登録に失敗しました"]⟩

/-- Whole-application state between events: the window registry, whether the
hotkey handler got registered during setup, and a requested exit code. -/
structure App where
  registry : Registry
  hotkey_registered : Bool
  exitCode : Option Int
deriving Repr, DecidableEq

/-- The discrete events the host loop delivers to the handlers. -/
inductive Event where
  | menu (id : String)
  | tray (e : TrayIconEvent)
  | hotkey (s : ShortcutState)
  | winEvent (name : String) (e : WinEvent)
deriving Repr, DecidableEq

/-- Fold a handler's output back into the application state. -/
def applyOut (a : App) (h : HandlerOut) : App :=
  { a with
    registry := h.registry
    exitCode := match a.exitCode with
      | some c => some c
      | none => h.exitCode }

/-- One step of the host event loop: route the event to its handler.  Hotkey
events reach the callback only when registration succeeded.  A window event
names its source window; the close interceptor's panic propagates as
`none`. -/
def dispatch (a : App) (e : Event) (o : Oracle) : Option App × List Effect :=
  match e with
  | Event.menu id =>
    let h := on_menu_event a.registry o id
    (some (applyOut a h), h.trace)
  | Event.tray te =>
    let h := on_tray_icon_event a.registry o te
    (some (applyOut a h), h.trace)
  | Event.hotkey st =>
    if a.hotkey_registered then
      let h := on_shortcut a.registry o st
      (some (applyOut a h), h.trace)
    else (some a, [])
  | Event.winEvent name we =>
    match getWindow a.registry name with
    | some w =>
      match on_window_event name w o we with
      | (some w1, tr) => (some { a with registry := setWindow a.registry name w1 }, tr)
      | (none, tr) => (none, tr)
    | none => (some a, [])

/-- Run a sequence of events, each with the host responses it meets;
`none` when some step panicked. -/
def runEvents (a : App) : List (Event × Oracle) → Option App
  | [] => some a
  | p :: rest =>
    match (dispatch a p.1 p.2).1 with
    | some a1 => runEvents a1 rest
    | none => none

/-- The visibility of the window registered under `n`, if any. -/
def windowVisible (a : App) (n : String) : Option Bool :=
  (getWindow a.registry n).map Window.visible

/-- The events whose handler toggles the "main" window: the "show_hide"
menu entry and a left click on the tray icon. -/
def isMainToggle (e : Event) : Prop :=
  e = Event.menu "show_hide" ∨ e = Event.tray (TrayIconEvent.click MouseButton.left)

/-! ### Registry and window-operation lemmas -/

theorem getWindow_setWindow_self (r : Registry) (n : String) (w v : Window)
    (h : getWindow r n = some v) : getWindow (setWindow r n w) n = some w := by
  induction r with
  | nil => simp [getWindow] at h
  | cons p rest ih =>
    by_cases hp : p.1 = n
    · simp [getWindow, setWindow, hp]
    · simp [getWindow, setWindow, hp] at h ⊢
      exact ih h

theorem setFocusRes_getD_visible (w : Window) (o : Oracle) :
    ((setFocusRes w o).getD w).visible = w.visible := by
  by_cases h : o.focus_ok <;> simp [setFocusRes, h]

theorem unminimizeRes_getD_visible (w : Window) (o : Oracle) :
    ((unminimizeRes w o).getD w).visible = w.visible := by
  by_cases h : o.unminimize_ok <;> simp [unminimizeRes, h]

/-- A concrete registry for witnesses: "main" visible, "launcher" hidden
and minimized. -/
def reg0 : Registry :=
  [("main", ⟨true, false, false⟩), ("launcher", ⟨false, true, false⟩)]

/-- The oracle in which every window-system call succeeds. -/
def oracleOk : Oracle := ⟨false, true, true, true, true⟩

/-- The oracle in which the visibility query errors but every mutation
succeeds. -/
def oracleVisErr : Oracle := ⟨true, true, true, true, true⟩

/-- The oracle in which `hide` fails and everything else succeeds. -/
def oracleHideErr : Oracle := ⟨false, false, true, true, true⟩

example : on_menu_event reg0 oracleOk "show_hide" =
    ⟨[("main", ⟨false, false, false⟩), ("launcher", ⟨false, true, false⟩)],
      none, [Effect.hideW "main"]⟩ := by decide

example : on_menu_event reg0 oracleOk "toggle_launcher" =
    ⟨[("main", ⟨true, false, false⟩), ("launcher", ⟨true, false, true⟩)],
      none, [Effect.showW "launcher", Effect.unminimizeW "launcher",
        Effect.focusW "launcher"]⟩ := by decide

example : on_menu_event reg0 oracleVisErr "show_hide" =
    ⟨[("main", ⟨true, false, true⟩), ("launcher", ⟨false, true, false⟩)],
      none, [Effect.showW "main", Effect.focusW "main"]⟩ := by decide

example : on_window_event "main" ⟨true, false, false⟩ oracleHideErr
    WinEvent.closeRequested = (none, [Effect.hideW "main"]) := by decide

/-! ### Branch lemmas for the four toggle handlers -/

/-- What the "show_hide" menu arm does once the handle resolves, split on the
observed visibility (`is_visible().unwrap_or(false)`). -/
theorem on_menu_event_show_hide (r : Registry) (o : Oracle) (w : Window)
    (h : getWindow r "main" = some w) :
    on_menu_event r o "show_hide" =
      if obsVisible w o then
        ⟨setWindow r "main" ((hideRes w o).getD w), none, [Effect.hideW "main"]⟩
      else
        ⟨setWindow r "main"
            ((setFocusRes ((showRes w o).getD w) o).getD ((showRes w o).getD w)),
          none, [Effect.showW "main", Effect.focusW "main"]⟩ := by
  simp only [on_menu_event, h]

/-- The "show_hide" menu arm is a silent no-op when "main" does not resolve. -/
theorem on_menu_event_show_hide_none (r : Registry) (o : Oracle)
    (h : getWindow r "main" = none) :
    on_menu_event r o "show_hide" = ⟨r, none, []⟩ := by
  simp only [on_menu_event, h]

/-- What the "toggle_launcher" menu arm does once the handle resolves. -/
theorem on_menu_event_toggle_launcher (r : Registry) (o : Oracle) (w : Window)
    (h : getWindow r "launcher" = some w) :
    on_menu_event r o "toggle_launcher" =
      if obsVisible w o then
        ⟨setWindow r "launcher" ((hideRes w o).getD w), none,
          [Effect.hideW "launcher"]⟩
      else
        ⟨setWindow r "launcher"
            ((setFocusRes ((unminimizeRes ((showRes w o).getD w) o).getD
                ((showRes w o).getD w)) o).getD
              ((unminimizeRes ((showRes w o).getD w) o).getD ((showRes w o).getD w))),
          none, [Effect.showW "launcher", Effect.unminimizeW "launcher",
            Effect.focusW "launcher"]⟩ := by
  simp only [on_menu_event, h]

/-- The "toggle_launcher" menu arm is a silent no-op when "launcher" does not
resolve. -/
theorem on_menu_event_toggle_launcher_none (r : Registry) (o : Oracle)
    (h : getWindow r "launcher" = none) :
    on_menu_event r o "toggle_launcher" = ⟨r, none, []⟩ := by
  simp only [on_menu_event, h]

/-- The tray click handler and the "show_hide" menu arm are the same function
of the registry and the host responses. -/
theorem on_tray_icon_event_left_eq (r : Registry) (o : Oracle) :
    on_tray_icon_event r o (TrayIconEvent.click MouseButton.left) =
      on_menu_event r o "show_hide" := by
  cases hw : getWindow r "main" with
  | none => simp only [on_tray_icon_event, on_menu_event, hw]
  | some w => simp only [on_tray_icon_event, on_menu_event, hw]

/-- The hotkey callback on a press and the "toggle_launcher" menu arm are the
same function of the registry and the host responses. -/
theorem on_shortcut_pressed_eq (r : Registry) (o : Oracle) :
    on_shortcut r o ShortcutState.pressed = on_menu_event r o "toggle_launcher" := by
  cases hw : getWindow r "launcher" with
  | none => simp only [on_shortcut, on_menu_event, hw]
  | some w => simp only [on_shortcut, on_menu_event, hw]

/-! ### Event-loop lemmas -/

theorem runEvents_append (a : App) (l1 l2 : List (Event × Oracle)) :
    runEvents a (l1 ++ l2) = (runEvents a l1).bind fun s => runEvents s l2 := by
  induction l1 generalizing a with
  | nil => simp [runEvents]
  | cons p rest ih =>
    simp only [List.cons_append, runEvents]
    cases (dispatch a p.1 p.2).1 with
    | none => simp
    | some a1 => simpa using ih a1

/-- One main-toggle event (menu "show_hide" or tray left click) flips the
visibility of "main" when the handle resolves, the visibility query
succeeds, and hide/show succeed. -/
theorem dispatch_main_toggle (a : App) (e : Event) (o : Oracle) (w : Window)
    (he : isMainToggle e)
    (hw : getWindow a.registry "main" = some w)
    (hv : o.vis_err = false) (hh : o.hide_ok = true) (hs : o.show_ok = true) :
    ∃ a1, (dispatch a e o).1 = some a1 ∧
      windowVisible a1 "main" = some (!w.visible) := by
  have hobs : obsVisible w o = w.visible := by
    simp [obsVisible, isVisibleRes, hv]
  have hmenu : ∃ a1,
      (some (applyOut a (on_menu_event a.registry o "show_hide")) = some a1) ∧
        windowVisible a1 "main" = some (!w.visible) := by
    refine ⟨applyOut a (on_menu_event a.registry o "show_hide"), rfl, ?_⟩
    rw [on_menu_event_show_hide a.registry o w hw, hobs]
    cases hvis : w.visible with
    | true =>
      rw [if_pos rfl]
      have : (hideRes w o).getD w = { w with visible := false } := by
        simp [hideRes, hh]
      simp only [windowVisible, applyOut, this]
      rw [getWindow_setWindow_self a.registry "main" _ w hw]
      simp
    | false =>
      rw [if_neg (by simp)]
      have hshow : (showRes w o).getD w = { w with visible := true } := by
        simp [showRes, hs]
      simp only [windowVisible, applyOut, hshow]
      rw [getWindow_setWindow_self a.registry "main" _ w hw]
      simp [setFocusRes_getD_visible]
  cases he with
  | inl h =>
    subst h
    simpa [dispatch] using hmenu
  | inr h =>
    subst h
    simpa [dispatch, on_tray_icon_event_left_eq] using hmenu

/-- A registry with only a hidden "main" window. -/
def reg1 : Registry := [("main", ⟨false, false, false⟩)]

/-- A registry in which both windows are visible. -/
def reg2 : Registry :=
  [("main", ⟨true, false, false⟩), ("launcher", ⟨true, false, true⟩)]

/-- An application state over `reg0` with the hotkey registered. -/
def app0 : App := ⟨reg0, true, none⟩

/-! ### Claims -/

/-- C1 (counterexample): the claim promises that every close request leads to
exactly one hide and one `prevent_close` and that the process keeps running,
but when the host rejects the hide call the handler panics after the hide
invocation and `prevent_close` is never reached. -/
theorem c1_counterexample :
    (on_window_event "main" ⟨true, false, false⟩ oracleHideErr
        WinEvent.closeRequested).1 = none ∧
    (on_window_event "main" ⟨true, false, false⟩ oracleHideErr
        WinEvent.closeRequested).2 = [Effect.hideW "main"] ∧
    Effect.preventClose ∉
      (on_window_event "main" ⟨true, false, false⟩ oracleHideErr
        WinEvent.closeRequested).2 := by
  decide

/-- C1 (amended): for every close-request event on any window, the close
interceptor invokes hide on the source window and — provided the hide
succeeds — then invokes `prevent_close`, each exactly once; the window is
merely hidden, never destroyed, and the handler returns normally so the
process keeps running. -/
theorem c1_close_request_hides_and_prevents (name : String) (w : Window)
    (o : Oracle) (h : o.hide_ok = true) :
    on_window_event name w o WinEvent.closeRequested
      = (some { w with visible := false },
          [Effect.hideW name, Effect.preventClose]) := by
  simp [on_window_event, hideRes, h]

/-- C1 witness: a visible "main" window receiving a close request with a
succeeding hide ends hidden, with one hide then one `prevent_close`. -/
theorem c1_witness :
    on_window_event "main" ⟨true, false, false⟩ oracleOk WinEvent.closeRequested
      = (some ⟨false, false, false⟩,
          [Effect.hideW "main", Effect.preventClose]) :=
  c1_close_request_hides_and_prevents "main" ⟨true, false, false⟩ oracleOk rfl

/-- C6: in the close interceptor a failed hide is not swallowed: the handler
panics (`none`), its trace holds only the hide invocation, and
`prevent_close` is never invoked because hiding precedes cancellation;
under the same failing-hide host responses the tray-click and hotkey
handlers instead complete normally, leaving the window unchanged. -/
theorem c6_close_hide_failure_fatal (name : String) (w : Window) (o : Oracle)
    (h : o.hide_ok = false) :
    (on_window_event name w o WinEvent.closeRequested).1 = none ∧
    (on_window_event name w o WinEvent.closeRequested).2 = [Effect.hideW name] ∧
    Effect.preventClose ∉ (on_window_event name w o WinEvent.closeRequested).2 ∧
    (∀ r v, getWindow r "main" = some v → o.vis_err = false → v.visible = true →
      on_tray_icon_event r o (TrayIconEvent.click MouseButton.left)
        = ⟨setWindow r "main" v, none, [Effect.hideW "main"]⟩) ∧
    (∀ r v, getWindow r "launcher" = some v → o.vis_err = false →
      v.visible = true →
      on_shortcut r o ShortcutState.pressed
        = ⟨setWindow r "launcher" v, none, [Effect.hideW "launcher"]⟩) := by
  have hres : hideRes w o = none := by simp [hideRes, h]
  refine ⟨?_, ?_, ?_, ?_, ?_⟩
  · simp [on_window_event, hres]
  · simp [on_window_event, hres]
  · simp [on_window_event, hres]
  · intro r v hv hverr hvis
    rw [on_tray_icon_event_left_eq, on_menu_event_show_hide r o v hv]
    have hobs : obsVisible v o = true := by
      simp [obsVisible, isVisibleRes, hverr, hvis]
    rw [if_pos hobs]
    have : (hideRes v o).getD v = v := by simp [hideRes, h]
    rw [this]
  · intro r v hv hverr hvis
    rw [on_shortcut_pressed_eq, on_menu_event_toggle_launcher r o v hv]
    have hobs : obsVisible v o = true := by
      simp [obsVisible, isVisibleRes, hverr, hvis]
    rw [if_pos hobs]
    have : (hideRes v o).getD v = v := by simp [hideRes, h]
    rw [this]

/-- C6 witness: with a failing hide, the close interceptor on a visible
"main" panics after the hide invocation, while the tray and hotkey handlers
complete and leave the visible windows of `reg2` unchanged. -/
theorem c6_witness :
    (on_window_event "main" ⟨true, false, false⟩ oracleHideErr
        WinEvent.closeRequested).1 = none ∧
    (on_window_event "main" ⟨true, false, false⟩ oracleHideErr
        WinEvent.closeRequested).2 = [Effect.hideW "main"] ∧
    Effect.preventClose ∉
      (on_window_event "main" ⟨true, false, false⟩ oracleHideErr
        WinEvent.closeRequested).2 ∧
    on_tray_icon_event reg2 oracleHideErr (TrayIconEvent.click MouseButton.left)
      = ⟨setWindow reg2 "main" ⟨true, false, false⟩, none, [Effect.hideW "main"]⟩ ∧
    on_shortcut reg2 oracleHideErr ShortcutState.pressed
      = ⟨setWindow reg2 "launcher" ⟨true, false, true⟩, none,
          [Effect.hideW "launcher"]⟩ := by
  obtain ⟨h1, h2, h3, h4, h5⟩ :=
    c6_close_hide_failure_fatal "main" ⟨true, false, false⟩ oracleHideErr rfl
  exact ⟨h1, h2, h3,
    h4 reg2 ⟨true, false, false⟩ (by decide) rfl rfl,
    h5 reg2 ⟨true, false, true⟩ (by decide) rfl rfl⟩

/-- C9: a menu event with identifier "quit" immediately requests process
termination with exit code 0; the registry is untouched and the trace holds
no window operation, only the exit. -/
theorem c9_quit_exits_zero (r : Registry) (o : Oracle) :
    on_menu_event r o "quit" = ⟨r, some 0, [Effect.exitApp 0]⟩ := by
  simp [on_menu_event]

/-- C2 (counterexample): the claim conditions only on the handle resolving
and the show/hide operations succeeding, but when the visibility query
errors on a visible "main" the handler takes the show branch and visibility
is unchanged instead of negated. -/
theorem c2_counterexample :
    oracleVisErr.hide_ok = true ∧ oracleVisErr.show_ok = true ∧
    windowVisible app0 "main" = some true ∧
    (runEvents app0 [(Event.menu "show_hide", oracleVisErr)]).map
        (fun s => windowVisible s "main") = some (some true) ∧
    (runEvents app0 [(Event.menu "show_hide", oracleVisErr)]).map
        (fun s => windowVisible s "main") ≠ some (some false) := by
  decide

/-- C2 (amended): along any sequence of events, at every position holding a
main-toggle event (menu "show_hide" or tray left click) whose handle
resolves, whose visibility query succeeds, and whose hide/show calls
succeed, the visibility of "main" after the event is the negation of its
visibility before it. -/
theorem c2_visibility_toggles (l : List (Event × Oracle)) (a : App) (i : Nat)
    (e : Event) (o : Oracle) (hi : l[i]? = some (e, o))
    (pre : App) (hpre : runEvents a (l.take i) = some pre)
    (w : Window) (hw : getWindow pre.registry "main" = some w)
    (he : isMainToggle e)
    (hv : o.vis_err = false) (hh : o.hide_ok = true) (hs : o.show_ok = true) :
    ∃ post, runEvents a (l.take (i + 1)) = some post ∧
      windowVisible post "main" = some (!w.visible) := by
  obtain ⟨a1, ha1, hvis⟩ := dispatch_main_toggle pre e o w he hw hv hh hs
  refine ⟨a1, ?_, hvis⟩
  rw [List.take_succ, hi, runEvents_append, hpre]
  simp [runEvents, ha1]

/-- C2 witness: from `app0` ("main" visible), the singleton sequence holding
one "show_hide" menu event with all calls succeeding ends with "main"
invisible. -/
theorem c2_witness :
    ∃ post,
      runEvents app0 ([(Event.menu "show_hide", oracleOk)].take (0 + 1))
        = some post ∧
      windowVisible post "main" = some (!true) :=
  c2_visibility_toggles [(Event.menu "show_hide", oracleOk)] app0 0
    (Event.menu "show_hide") oracleOk rfl app0 rfl ⟨true, false, false⟩
    (by decide) (Or.inl rfl) rfl rfl rfl

/-- C3 (counterexample): the claim says a resolving handle on a visible
"main" makes the handler hide it, but when the visibility query errors the
handler shows and focuses instead of hiding. -/
theorem c3_counterexample :
    getWindow reg0 "main" = some ⟨true, false, false⟩ ∧
    (on_menu_event reg0 oracleVisErr "show_hide").trace
      = [Effect.showW "main", Effect.focusW "main"] ∧
    (on_menu_event reg0 oracleVisErr "show_hide").trace
      ≠ [Effect.hideW "main"] := by
  decide

/-- C3 (amended): for a "show_hide" menu event, if the "main" handle
resolves, the visibility query succeeds and the window is visible, the
handler hides it; if the handle resolves and the query reports not visible
or fails, the handler shows it and then focuses it; if the handle does not
resolve, the handler does nothing and surfaces no error. -/
theorem c3_show_hide_cases (r : Registry) (o : Oracle) :
    (∀ w, getWindow r "main" = some w → o.vis_err = false → w.visible = true →
      on_menu_event r o "show_hide"
        = ⟨setWindow r "main" ((hideRes w o).getD w), none,
            [Effect.hideW "main"]⟩) ∧
    (∀ w, getWindow r "main" = some w → obsVisible w o = false →
      on_menu_event r o "show_hide"
        = ⟨setWindow r "main"
              ((setFocusRes ((showRes w o).getD w) o).getD ((showRes w o).getD w)),
            none, [Effect.showW "main", Effect.focusW "main"]⟩) ∧
    (getWindow r "main" = none → on_menu_event r o "show_hide" = ⟨r, none, []⟩) := by
  refine ⟨?_, ?_, ?_⟩
  · intro w hw hverr hvis
    rw [on_menu_event_show_hide r o w hw]
    have hobs : obsVisible w o = true := by
      simp [obsVisible, isVisibleRes, hverr, hvis]
    rw [if_pos hobs]
  · intro w hw hobs
    rw [on_menu_event_show_hide r o w hw]
    rw [if_neg (by simp [hobs])]
  · intro hw
    exact on_menu_event_show_hide_none r o hw

/-- C3 witness: over concrete registries, "show_hide" hides the visible
"main" of `reg0`, shows and focuses the hidden "main" of `reg1`, and is a
no-op on the empty registry. -/
theorem c3_witness :
    on_menu_event reg0 oracleOk "show_hide"
      = ⟨setWindow reg0 "main" ((hideRes ⟨true, false, false⟩ oracleOk).getD
            ⟨true, false, false⟩), none, [Effect.hideW "main"]⟩ ∧
    on_menu_event reg1 oracleOk "show_hide"
      = ⟨setWindow reg1 "main"
            ((setFocusRes ((showRes ⟨false, false, false⟩ oracleOk).getD
                ⟨false, false, false⟩) oracleOk).getD
              ((showRes ⟨false, false, false⟩ oracleOk).getD ⟨false, false, false⟩)),
          none, [Effect.showW "main", Effect.focusW "main"]⟩ ∧
    on_menu_event [] oracleOk "show_hide" = ⟨[], none, []⟩ :=
  ⟨(c3_show_hide_cases reg0 oracleOk).1 ⟨true, false, false⟩ (by decide) rfl rfl,
    (c3_show_hide_cases reg1 oracleOk).2.1 ⟨false, false, false⟩ (by decide)
      (by decide),
    (c3_show_hide_cases [] oracleOk).2.2 rfl⟩

/-- C4: every toggle event for "launcher" (menu "toggle_launcher" or hotkey
press) that finds the window hidden invokes show, then unminimize, then
set_focus in that one handler invocation; and when those calls succeed the
window ends visible, unminimized and focused. -/
theorem c4_launcher_hidden_shows_unminimizes_focuses (r : Registry)
    (o : Oracle) (w : Window) (hw : getWindow r "launcher" = some w)
    (hv : w.visible = false) :
    (on_menu_event r o "toggle_launcher").trace
      = [Effect.showW "launcher", Effect.unminimizeW "launcher",
          Effect.focusW "launcher"] ∧
    (on_shortcut r o ShortcutState.pressed).trace
      = [Effect.showW "launcher", Effect.unminimizeW "launcher",
          Effect.focusW "launcher"] ∧
    (o.show_ok = true → o.unminimize_ok = true → o.focus_ok = true →
      getWindow (on_menu_event r o "toggle_launcher").registry "launcher"
          = some ⟨true, false, true⟩ ∧
      getWindow (on_shortcut r o ShortcutState.pressed).registry "launcher"
          = some ⟨true, false, true⟩) := by
  have hobs : obsVisible w o = false := by
    cases hverr : o.vis_err <;> simp [obsVisible, isVisibleRes, hverr, hv]
  have hm := on_menu_event_toggle_launcher r o w hw
  rw [if_neg (by simp [hobs])] at hm
  refine ⟨by rw [hm], by rw [on_shortcut_pressed_eq, hm], ?_⟩
  intro hs hu hf
  have hW3 : (setFocusRes ((unminimizeRes ((showRes w o).getD w) o).getD
        ((showRes w o).getD w)) o).getD
          ((unminimizeRes ((showRes w o).getD w) o).getD ((showRes w o).getD w))
      = ⟨true, false, true⟩ := by
    simp [showRes, unminimizeRes, setFocusRes, hs, hu, hf]
  rw [hW3] at hm
  constructor
  · rw [hm]
    exact getWindow_setWindow_self r "launcher" ⟨true, false, true⟩ w hw
  · rw [on_shortcut_pressed_eq, hm]
    exact getWindow_setWindow_self r "launcher" ⟨true, false, true⟩ w hw

/-- C4 witness: the hidden, minimized "launcher" of `reg0`, toggled by the
menu or the hotkey with all calls succeeding, gets show, unminimize and
set_focus and ends visible, unminimized and focused. -/
theorem c4_witness :
    (on_menu_event reg0 oracleOk "toggle_launcher").trace
      = [Effect.showW "launcher", Effect.unminimizeW "launcher",
          Effect.focusW "launcher"] ∧
    (on_shortcut reg0 oracleOk ShortcutState.pressed).trace
      = [Effect.showW "launcher", Effect.unminimizeW "launcher",
          Effect.focusW "launcher"] ∧
    getWindow (on_menu_event reg0 oracleOk "toggle_launcher").registry "launcher"
      = some ⟨true, false, true⟩ ∧
    getWindow (on_shortcut reg0 oracleOk ShortcutState.pressed).registry "launcher"
      = some ⟨true, false, true⟩ := by
  obtain ⟨h1, h2, h3⟩ := c4_launcher_hidden_shows_unminimizes_focuses reg0
    oracleOk ⟨false, true, false⟩ (by decide) rfl
  obtain ⟨h4, h5⟩ := h3 rfl rfl rfl
  exact ⟨h1, h2, h4, h5⟩

/-- C5 (counterexample): the claim says a pressed hotkey hides a visible
"launcher", but when the visibility query errors on the visible "launcher"
of `reg2` the handler takes the show branch instead of hiding. -/
theorem c5_counterexample :
    getWindow reg2 "launcher" = some ⟨true, false, true⟩ ∧
    (on_shortcut reg2 oracleVisErr ShortcutState.pressed).trace
      = [Effect.showW "launcher", Effect.unminimizeW "launcher",
          Effect.focusW "launcher"] ∧
    (on_shortcut reg2 oracleVisErr ShortcutState.pressed).trace
      ≠ [Effect.hideW "launcher"] := by
  decide

/-- C5 (amended): a released hotkey event triggers no action; a pressed one
shows, unminimizes and focuses "launcher" when the observed visibility
(query result, false on query failure) is false, hides it when the query
succeeds and reports visible, and does nothing when the handle is absent. -/
theorem c5_hotkey_toggle_cases (r : Registry) (o : Oracle) :
    on_shortcut r o ShortcutState.released = ⟨r, none, []⟩ ∧
    (∀ w, getWindow r "launcher" = some w → obsVisible w o = false →
      on_shortcut r o ShortcutState.pressed
        = ⟨setWindow r "launcher"
              ((setFocusRes ((unminimizeRes ((showRes w o).getD w) o).getD
                  ((showRes w o).getD w)) o).getD
                ((unminimizeRes ((showRes w o).getD w) o).getD
                  ((showRes w o).getD w))),
            none, [Effect.showW "launcher", Effect.unminimizeW "launcher",
              Effect.focusW "launcher"]⟩) ∧
    (∀ w, getWindow r "launcher" = some w → o.vis_err = false →
      w.visible = true →
      on_shortcut r o ShortcutState.pressed
        = ⟨setWindow r "launcher" ((hideRes w o).getD w), none,
            [Effect.hideW "launcher"]⟩) ∧
    (getWindow r "launcher" = none →
      on_shortcut r o ShortcutState.pressed = ⟨r, none, []⟩) := by
  refine ⟨rfl, ?_, ?_, ?_⟩
  · intro w hw hobs
    rw [on_shortcut_pressed_eq, on_menu_event_toggle_launcher r o w hw]
    rw [if_neg (by simp [hobs])]
  · intro w hw hverr hvis
    rw [on_shortcut_pressed_eq, on_menu_event_toggle_launcher r o w hw]
    have hobs : obsVisible w o = true := by
      simp [obsVisible, isVisibleRes, hverr, hvis]
    rw [if_pos hobs]
  · intro hw
    rw [on_shortcut_pressed_eq]
    exact on_menu_event_toggle_launcher_none r o hw

/-- C5 witness: concretely, a released event does nothing on `reg0`; a press
shows+unminimizes+focuses the hidden launcher of `reg0`; a press hides the
visible launcher of `reg2`; a press on the empty registry does nothing. -/
theorem c5_witness :
    on_shortcut reg0 oracleOk ShortcutState.released = ⟨reg0, none, []⟩ ∧
    on_shortcut reg0 oracleOk ShortcutState.pressed
      = ⟨setWindow reg0 "launcher"
            ((setFocusRes ((unminimizeRes ((showRes ⟨false, true, false⟩
                oracleOk).getD ⟨false, true, false⟩) oracleOk).getD
                ((showRes ⟨false, true, false⟩ oracleOk).getD
                  ⟨false, true, false⟩)) oracleOk).getD
              ((unminimizeRes ((showRes ⟨false, true, false⟩ oracleOk).getD
                  ⟨false, true, false⟩) oracleOk).getD
                ((showRes ⟨false, true, false⟩ oracleOk).getD
                  ⟨false, true, false⟩))),
          none, [Effect.showW "launcher", Effect.unminimizeW "launcher",
            Effect.focusW "launcher"]⟩ ∧
    on_shortcut reg2 oracleOk ShortcutState.pressed
      = ⟨setWindow reg2 "launcher"
            ((hideRes ⟨true, false, true⟩ oracleOk).getD ⟨true, false, true⟩),
          none, [Effect.hideW "launcher"]⟩ ∧
    on_shortcut [] oracleOk ShortcutState.pressed = ⟨[], none, []⟩ :=
  ⟨(c5_hotkey_toggle_cases reg0 oracleOk).1,
    (c5_hotkey_toggle_cases reg0 oracleOk).2.1 ⟨false, true, false⟩ (by decide)
      (by decide),
    (c5_hotkey_toggle_cases reg2 oracleOk).2.2.1 ⟨true, false, true⟩ (by decide)
      rfl rfl,
    (c5_hotkey_toggle_cases [] oracleOk).2.2.2 rfl⟩

/-- C7: if hotkey registration fails while menu and tray construction
succeed, setup logs the failure and still returns `Ok` with the tray
installed and the hotkey unregistered; and the dispatch of every non-hotkey
event (menu, tray click, window event) is independent of whether the hotkey
got registered. -/
theorem c7_registration_failure_nonfatal (o : SetupOracle)
    (hm : o.menu_ok = true) (ht : o.tray_ok = true) (hr : o.register_ok = false) :
    setup o = Except.ok
      ⟨true, false, ["グローバルショートカットの登録に失敗しました"]⟩ ∧
    (∀ (a : App) (e : Event) (oo : Oracle) (b1 b2 : Bool),
      (∀ s, e ≠ Event.hotkey s) →
      ((dispatch { a with hotkey_registered := b1 } e oo).1.map
          (fun s => (s.registry, s.exitCode)),
        (dispatch { a with hotkey_registered := b1 } e oo).2)
        = ((dispatch { a with hotkey_registered := b2 } e oo).1.map
            (fun s => (s.registry, s.exitCode)),
          (dispatch { a with hotkey_registered := b2 } e oo).2)) := by
  constructor
  · simp [setup, hm, ht, hr]
  · intro a e oo b1 b2 hne
    cases e with
    | menu id => simp [dispatch, applyOut]
    | tray te => simp [dispatch, applyOut]
    | hotkey s => exact absurd rfl (hne s)
    | winEvent n we =>
      cases hw : getWindow a.registry n with
      | none => simp [dispatch, hw]
      | some w =>
        rcases how : on_window_event n w oo we with ⟨ow, tr⟩
        cases ow <;> simp [dispatch, hw, how]

/-- C7 witness: the concrete setup responses in which only registration
fails yield `Ok` with the tray installed, no hotkey, and the logged line,
and non-hotkey dispatch is unaffected by the registration flag. -/
theorem c7_witness :
    setup ⟨true, true, false⟩ = Except.ok
      ⟨true, false, ["グローバルショートカットの登録に失敗しました"]⟩ ∧
    (∀ (a : App) (e : Event) (oo : Oracle) (b1 b2 : Bool),
      (∀ s, e ≠ Event.hotkey s) →
      ((dispatch { a with hotkey_registered := b1 } e oo).1.map
          (fun s => (s.registry, s.exitCode)),
        (dispatch { a with hotkey_registered := b1 } e oo).2)
        = ((dispatch { a with hotkey_registered := b2 } e oo).1.map
            (fun s => (s.registry, s.exitCode)),
          (dispatch { a with hotkey_registered := b2 } e oo).2)) :=
  c7_registration_failure_nonfatal ⟨true, true, false⟩ rfl rfl rfl

/-- C8: a left tray click is the same function of the registry and host
responses as the "show_hide" menu arm, and any other tray event — a click
with another button or a non-click event — produces no action. -/
theorem c8_tray_left_equals_show_hide (r : Registry) (o : Oracle) :
    on_tray_icon_event r o (TrayIconEvent.click MouseButton.left)
      = on_menu_event r o "show_hide" ∧
    (∀ b, b ≠ MouseButton.left →
      on_tray_icon_event r o (TrayIconEvent.click b) = ⟨r, none, []⟩) ∧
    on_tray_icon_event r o TrayIconEvent.other = ⟨r, none, []⟩ := by
  refine ⟨on_tray_icon_event_left_eq r o, ?_, rfl⟩
  intro b hb
  cases b with
  | left => exact absurd rfl hb
  | right => rfl
  | middle => rfl

/-- C8 witness: over `reg0`, the tray left click literally equals the
"show_hide" menu handler, and a right click does nothing. -/
theorem c8_witness :
    on_tray_icon_event reg0 oracleOk (TrayIconEvent.click MouseButton.left)
      = on_menu_event reg0 oracleOk "show_hide" ∧
    on_tray_icon_event reg0 oracleOk (TrayIconEvent.click MouseButton.right)
      = ⟨reg0, none, []⟩ :=
  ⟨(c8_tray_left_equals_show_hide reg0 oracleOk).1,
    (c8_tray_left_equals_show_hide reg0 oracleOk).2.1 MouseButton.right
      (by decide)⟩

/-- C10: in all four toggle handlers, a failing visibility query makes the
handler treat the window as not visible and take the show branch — show and
focus for "main", show, unminimize and focus for "launcher" — never the
hide branch or a skip. -/
theorem c10_vis_error_takes_show_branch (r : Registry) (o : Oracle)
    (h : o.vis_err = true) :
    (∀ w, getWindow r "main" = some w →
      (on_menu_event r o "show_hide").trace
          = [Effect.showW "main", Effect.focusW "main"] ∧
      (on_tray_icon_event r o (TrayIconEvent.click MouseButton.left)).trace
          = [Effect.showW "main", Effect.focusW "main"]) ∧
    (∀ w, getWindow r "launcher" = some w →
      (on_menu_event r o "toggle_launcher").trace
          = [Effect.showW "launcher", Effect.unminimizeW "launcher",
              Effect.focusW "launcher"] ∧
      (on_shortcut r o ShortcutState.pressed).trace
          = [Effect.showW "launcher", Effect.unminimizeW "launcher",
              Effect.focusW "launcher"]) := by
  have hobs : ∀ w : Window, obsVisible w o = false := fun w => by
    simp [obsVisible, isVisibleRes, h]
  constructor
  · intro w hw
    have hm := on_menu_event_show_hide r o w hw
    rw [if_neg (by simp [hobs])] at hm
    exact ⟨by rw [hm], by rw [on_tray_icon_event_left_eq, hm]⟩
  · intro w hw
    have hm := on_menu_event_toggle_launcher r o w hw
    rw [if_neg (by simp [hobs])] at hm
    exact ⟨by rw [hm], by rw [on_shortcut_pressed_eq, hm]⟩

/-- C10 witness: over `reg2`, where both windows are actually visible, the
erroring visibility query drives all four handlers into the show branch. -/
theorem c10_witness :
    (on_menu_event reg2 oracleVisErr "show_hide").trace
        = [Effect.showW "main", Effect.focusW "main"] ∧
    (on_tray_icon_event reg2 oracleVisErr
        (TrayIconEvent.click MouseButton.left)).trace
        = [Effect.showW "main", Effect.focusW "main"] ∧
    (on_menu_event reg2 oracleVisErr "toggle_launcher").trace
        = [Effect.showW "launcher", Effect.unminimizeW "launcher",
            Effect.focusW "launcher"] ∧
    (on_shortcut reg2 oracleVisErr ShortcutState.pressed).trace
        = [Effect.showW "launcher", Effect.unminimizeW "launcher",
            Effect.focusW "launcher"] := by
  obtain ⟨h1, h2⟩ := c10_vis_error_takes_show_branch reg2 oracleVisErr rfl
  obtain ⟨a1, a2⟩ := h1 ⟨true, false, false⟩ (by decide)
  obtain ⟨b1, b2⟩ := h2 ⟨true, false, true⟩ (by decide)
  exact ⟨a1, a2, b1, b2⟩
